import Mathlib

/-!
# Verification of the Gift-Recommendation-Bot chat client

A shallow embedding of the repository's two source files:

* `src/app/page.tsx` — the chat page: `formatText`, `initializeSession`
  (session resolution + history load), `handleSend`, `handleClearChat`;
* `src/lib/supabase.ts` — the persistence gateway: `getHistory`,
  `saveMessage`.

External effects (the fetch to the chat backend, the supabase query, the
browser's `localStorage`, `Date.now()`, `Math.random()`) are passed in as
explicit parameters: an outcome value for each awaited call, an
`Option String` for the stored `chatSessionId` value, a `Nat` for the
clock, and the base-36 rendering of the random number for the random
source.  JavaScript-specific behaviour (`||` on strings, `!s` truthiness,
`substr`, `trim`, `split` with a capturing regex) is embedded faithfully.
-/

/-- The `sender` field of a view message: the TS union type `"user" | "bot"`. -/
inductive Sender where
  | user
  | bot
deriving DecidableEq, Repr

/-- The view-local `Message` interface of `page.tsx` (lines 6–12).
`timestamp : Date` is modelled as the `Nat` value of the clock at creation;
the optional `chips?: string[]` field is an `Option`. -/
structure Message where
  id : String
  text : String
  sender : Sender
  timestamp : Nat
  chips : Option (List String)
deriving DecidableEq, Repr

/-- The React component state of `page.tsx`: `messages`, `input`, `loading`,
`sessionId` (lines 28–31). -/
structure ChatState where
  messages : List Message
  input : String
  loading : Bool
  sessionId : String
deriving DecidableEq, Repr

/-- A row of the `chat_messages` table as returned by the store.  The TS
`ChatMessage` interface marks `id` and `created_at` optional because they are
server-assigned on insert; rows read back always carry them, so the row type
used for query results has them present.  `created_at` is modelled as a `Nat`
timestamp (the code orders by it and feeds it to `new Date`). -/
structure ChatMessageRow where
  id : String
  session_id : String
  role : String
  content : String
  created_at : Nat
deriving DecidableEq, Repr

/-- The parsed JSON body of a successful `/chat` response, per the expected
shape `{ reply?: string, message?: string, chips?: string[] }`. -/
structure RespBody where
  reply : Option String
  message : Option String
  chips : Option (List String)
deriving DecidableEq, Repr

/-- Outcome of the awaited `fetch` + `response.json()` pair in `handleSend`:
`ok body` means `response.ok` held and the body parsed; `httpErr s` means
`response.ok` was false with `statusText = s`; `exn m` means the transport or
the JSON parse threw — `some m` when the thrown value is an `Error` with
message `m`, `none` for a non-`Error` throw. -/
inductive FetchOutcome where
  | ok (body : RespBody)
  | httpErr (statusText : String)
  | exn (msg : Option String)
deriving DecidableEq, Repr

/-- Outcome of one awaited supabase call: the promise resolved with a null
`error` (`ok`), resolved with a non-null `error` object (`err`), or
rejected / threw (`thrown`). -/
inductive QueryOutcome where
  | ok
  | err
  | thrown
deriving DecidableEq, Repr

/-- The body `{ message, session_id }` posted to `{backendUrl}/chat`. -/
structure SendRequest where
  message : String
  session_id : String
deriving DecidableEq, Repr

/-! ## JavaScript string primitives -/

/-- The JavaScript `||` operator applied to an optional string field and a
fallback: an absent field (`undefined`) and the empty string are both falsy,
so both select the fallback. -/
def jsOrElse (o : Option String) (d : String) : String :=
  match o with
  | some s => if s = "" then d else s
  | none => d

/-- `String.prototype.substr(start, len)`: up to `len` characters starting at
index `start` (shorter when the string runs out). -/
def jsSubstr (s : String) (start len : Nat) : String :=
  String.mk ((s.data.drop start).take len)

/-- Whitespace as trimmed by `String.prototype.trim`. -/
def jsWhitespace (c : Char) : Bool :=
  c = ' ' || c = '\t' || c = '\n' || c = '\r' ||
  c = '\u000b' || c = '\u000c' || c = '\u00a0' || c = '\ufeff'

/-- `String.prototype.trim`: strip `jsWhitespace` from both ends. -/
def jsTrim (s : String) : String :=
  String.mk ((s.data.dropWhile jsWhitespace).reverse.dropWhile jsWhitespace |>.reverse)

/-- Minimal JSON string escaping used by `jsonStringifyBody`. -/
def jsonEscape (s : String) : String :=
  String.mk (s.data.flatMap fun c =>
    if c = '"' then ['\\', '"']
    else if c = '\\' then ['\\', '\\']
    else [c])

/-- `JSON.stringify` restricted to the modelled response body: serialises the
present fields in the order `reply`, `message`, `chips`. -/
def jsonStringifyBody (b : RespBody) : String :=
  let fields :=
    (match b.reply with
     | some r => ["\"reply\":\"" ++ jsonEscape r ++ "\""]
     | none => []) ++
    (match b.message with
     | some m => ["\"message\":\"" ++ jsonEscape m ++ "\""]
     | none => []) ++
    (match b.chips with
     | some cs =>
        ["\"chips\":[" ++ String.intercalate ","
            (cs.map fun c => "\"" ++ jsonEscape c ++ "\"") ++ "]"]
     | none => [])
  "\x7b" ++ String.intercalate "," fields ++ "\x7d"

/-! ## Session identifiers -/

/-- The session-identifier expression used at `page.tsx` lines 42 and 157:
`` `session_${Date.now()}_${Math.random().toString(36).substr(2, 9)}` ``.
`now` is the value of `Date.now()`; `rnd` is the string produced by
`Math.random().toString(36)`. -/
def mkSessionId (now : Nat) (rnd : String) : String :=
  "session_" ++ toString now ++ "_" ++ jsSubstr rnd 2 9

/-- A base-36 digit as produced by `Number.prototype.toString(36)`. -/
def isBase36Char (c : Char) : Bool :=
  c.isDigit || ('a' ≤ c && c ≤ 'z')

/-- Shape of `Math.random().toString(36)` for a random value in `[0, 1)`:
either exactly `"0"` (for the value `0`) or `"0."` followed by a non-empty
run of base-36 digits. -/
def isRand36Rendering (s : String) : Bool :=
  s = "0" ||
  (s.data.take 2 = ['0', '.'] && !(s.data.drop 2).isEmpty &&
    (s.data.drop 2).all isBase36Char)

/-- `page.tsx` lines 38–46: read `localStorage.getItem("chatSessionId")`;
when the stored value is falsy (`null` or `""`) generate a fresh identifier
and write it back.  Returns the resolved identifier, the storage value under
the key afterwards, and whether a `setItem` write occurred. -/
def resolveSession (storage : Option String) (now : Nat) (rnd : String) :
    String × Option String × Bool :=
  match storage with
  | some s =>
      if s = "" then
        let nid := mkSessionId now rnd
        (nid, some nid, true)
      else (s, some s, false)
  | none =>
      let nid := mkSessionId now rnd
      (nid, some nid, true)

/-! ## handleSend (`page.tsx` lines 86–141) -/

/-- `handleSend`.  `now` is `Date.now()` when the user message is built;
`later` is `Date.now()` when the response arrives.  Besides the new component
state it returns the request posted to the backend, `none` when the guard
`!input.trim() || !sessionId` returned early and no fetch was issued.  The
function is total: every branch of the `try`/`catch`/`finally` appends a
message and clears `loading`, so no exception escapes. -/
def handleSend (st : ChatState) (now later : Nat) (outcome : FetchOutcome) :
    ChatState × Option SendRequest :=
  if jsTrim st.input = "" ∨ st.sessionId = "" then (st, none)
  else
    let userMessage : Message :=
      { id := toString now, text := st.input, sender := .user,
        timestamp := now, chips := none }
    let messageText := st.input
    let st := { st with
      messages := st.messages ++ [userMessage], input := "", loading := true }
    let botMessage : Message :=
      match outcome with
      | .ok body =>
          { id := toString (later + 1),
            text := jsOrElse body.reply
              (jsOrElse body.message (jsonStringifyBody body)),
            sender := .bot, timestamp := later,
            chips := some (body.chips.getD []) }
      | .httpErr statusText =>
          { id := toString (later + 1), text := "Error: " ++ statusText,
            sender := .bot, timestamp := later, chips := none }
      | .exn m =>
          { id := toString (later + 1),
            text := "Error: " ++ m.getD "Unknown error",
            sender := .bot, timestamp := later, chips := none }
    ({ st with messages := st.messages ++ [botMessage], loading := false },
     some { message := messageText, session_id := st.sessionId })

/-! ## The persistence gateway (`supabase.ts`) and history load -/

/-- Ordering of rows by `created_at`. -/
def rowLe (a b : ChatMessageRow) : Prop :=
  a.created_at ≤ b.created_at

instance : DecidableRel rowLe := fun a b =>
  inferInstanceAs (Decidable (a.created_at ≤ b.created_at))

instance : IsTotal ChatMessageRow rowLe :=
  ⟨fun a b => Nat.le_total a.created_at b.created_at⟩

instance : IsTrans ChatMessageRow rowLe :=
  ⟨fun _ _ _ h h' => Nat.le_trans h h'⟩

/-- Modelled from the spec: the external persistence read
`from("chat_messages").select("*").eq("session_id", sid).order("created_at",
ascending)` — the supabase client itself is outside the repository; per §6
of the spec it filters the table by `session_id` and orders by `created_at`
ascending. -/
def supabaseSelect (db : List ChatMessageRow) (sid : String) :
    List ChatMessageRow :=
  List.insertionSort rowLe (db.filter fun r => r.session_id = sid)

/-- `supabase.ts` lines 27–45, `getHistory`: on a resolved call with null
`error` return the data rows; on a non-null `error` or a thrown exception,
swallow and return `null`. -/
def getHistory (db : List ChatMessageRow) (sid : String) (out : QueryOutcome) :
    Option (List ChatMessageRow) :=
  match out with
  | .ok => some (supabaseSelect db sid)
  | .err => none
  | .thrown => none

/-- The object literal inserted by `saveMessage`: exactly the fields
`session_id`, `role`, `content` — no client-side `id` or `created_at`. -/
structure InsertRow where
  session_id : String
  role : String
  content : String
deriving DecidableEq, Repr

/-- The payload array `[{ session_id, role, content }]` passed to
`.insert(...)` in `saveMessage` (`supabase.ts` lines 60–66). -/
def saveMessagePayload (sessionId role content : String) : List InsertRow :=
  [{ session_id := sessionId, role := role, content := content }]

/-- `supabase.ts` lines 54–78, `saveMessage`: returns the resolved `data` on
success and `null` on a query error or a thrown exception; both failure kinds
are swallowed. -/
def saveMessage (sessionId role content : String) (out : QueryOutcome) :
    Option (List InsertRow) :=
  match out with
  | .ok => some (saveMessagePayload sessionId role content)
  | .err => none
  | .thrown => none

/-- The `data.map` at `page.tsx` lines 62–67: a persisted row becomes a view
message with `text = content`, `sender = "user"` exactly when
`role === "user"`, and no `chips` field. -/
def toViewMessage (r : ChatMessageRow) : Message :=
  { id := r.id, text := r.content,
    sender := if r.role = "user" then .user else .bot,
    timestamp := r.created_at, chips := none }

/-- `initializeSession` (`page.tsx` lines 36–73): resolve or create the
session identifier, then load history with the same query as `getHistory`;
on a query error or exception keep the state; when rows came back non-empty,
replace `messages` by their element-wise image under `toViewMessage`.
Returns the new component state and the storage value afterwards. -/
def initializeSession (storage : Option String) (now : Nat) (rnd : String)
    (db : List ChatMessageRow) (out : QueryOutcome) (st : ChatState) :
    ChatState × Option String :=
  let r := resolveSession storage now rnd
  let st := { st with sessionId := r.1 }
  match out with
  | .ok =>
      let rows := supabaseSelect db r.1
      if rows.length > 0 then
        ({ st with messages := rows.map toViewMessage }, r.2.1)
      else (st, r.2.1)
  | .err => (st, r.2.1)
  | .thrown => (st, r.2.1)

/-- `handleClearChat` (`page.tsx` lines 150–161): behind the `confirm`
dialog, empty the message list and the input, generate a fresh identifier
and persist it.  The store `db` is threaded through untouched — the handler
performs no persistence call, so no rows are deleted. -/
def handleClearChat (confirmed : Bool) (now : Nat) (rnd : String)
    (st : ChatState) (storage : Option String) (db : List ChatMessageRow) :
    ChatState × Option String × List ChatMessageRow :=
  if confirmed then
    let newSessionId := mkSessionId now rnd
    ({ st with messages := [], input := "", sessionId := newSessionId },
     some newSessionId, db)
  else (st, storage, db)

/-! ## formatText (`page.tsx` lines 14–25)

`formatText` splits its input on the regex `(\*\*.*?\*\*|\*.*?\*)g` — a
capturing group, so the separators appear in the result of `split` — and
maps each part: a part that starts and ends with `**` becomes a `<strong>`
element holding `part.slice(2, -2)`; otherwise a part that starts and ends
with `*` becomes a `<strong>` element holding `part.slice(1, -1)`; any other
part is rendered as plain text.

The regex engine is embedded directly: `lazyClose2`/`lazyClose1` implement
the lazy `.*?` followed by the closing `\*\*`/`\*` (at each position the
closing delimiter is tried first, and `.` matches anything but a line
terminator); `matchDelim` tries the two alternatives in order at one
position; `splitScanAux` scans left to right for the leftmost match,
collecting the plain runs between matches and a trailing (possibly empty)
run, exactly as `String.prototype.split` does. -/

/-- `.` in the formatter's regex: any character except a line terminator. -/
def isDotChar (c : Char) : Bool :=
  c ≠ '\n' && c ≠ '\r' && c ≠ '\u2028' && c ≠ '\u2029'

/-- Lazy match of `.*?\*\*`: returns the content consumed by `.*?` and the
remainder after the closing `**`. -/
def lazyClose2 : List Char → Option (List Char × List Char)
  | [] => none
  | c :: rest =>
    if c = '*' ∧ rest.head? = some '*' then some ([], rest.tail)
    else if isDotChar c then (lazyClose2 rest).map fun p => (c :: p.1, p.2)
    else none

/-- Lazy match of `.*?\*`: returns the content consumed by `.*?` and the
remainder after the closing `*`. -/
def lazyClose1 : List Char → Option (List Char × List Char)
  | [] => none
  | c :: rest =>
    if c = '*' then some ([], rest)
    else if isDotChar c then (lazyClose1 rest).map fun p => (c :: p.1, p.2)
    else none

/-- Try `\*\*.*?\*\*|\*.*?\*` at the head of `xs` (first alternative first);
on success return the matched run (delimiters included) and the remainder. -/
def matchDelim : List Char → Option (List Char × List Char)
  | [] => none
  | c :: rest =>
    if c = '*' then
      if rest.head? = some '*' then
        match lazyClose2 rest.tail with
        | some (content, r) => some ('*' :: '*' :: (content ++ ['*', '*']), r)
        | none =>
          match lazyClose1 rest with
          | some (content, r) => some ('*' :: (content ++ ['*']), r)
          | none => none
      else
        match lazyClose1 rest with
        | some (content, r) => some ('*' :: (content ++ ['*']), r)
        | none => none
    else none

/-- Left-to-right scan of `String.prototype.split` with a capturing regex:
`acc` holds the current plain run reversed; on a match, emit the plain run
and the captured separator and continue after it.  `fuel` only bounds the
recursion depth; since every step consumes at least one character, the
initial fuel `l.length` is never exhausted. -/
def splitScanAux : Nat → List Char → List Char → List (List Char)
  | _, acc, [] => [acc.reverse]
  | 0, acc, l => [acc.reverse ++ l]
  | fuel + 1, acc, c :: cs =>
    match matchDelim (c :: cs) with
    | some (m, rest) => acc.reverse :: m :: splitScanAux fuel [] rest
    | none => splitScanAux fuel (c :: acc) cs

/-- `text.split(/(\*\*.*?\*\*|\*.*?\*)/g)` as a list of character runs. -/
def splitParts (text : String) : List (List Char) :=
  splitScanAux text.data.length [] text.data

/-- One rendered piece of a formatted message: a plain text run, or a
`<strong>` element. -/
inductive Segment where
  | text (s : String)
  | strong (s : String)
deriving DecidableEq, Repr

/-- The `parts.map` body of `formatText`: `**…**` parts and `*…*` parts lose
their delimiters and render emphasized, everything else renders as plain
text.  The `startsWith`/`endsWith`/`slice` tests are the JavaScript ones
(`slice(2, -2)` clamps to the empty string on short parts). -/
def renderPart (p : List Char) : Segment :=
  if p.take 2 = ['*', '*'] ∧ p.reverse.take 2 = ['*', '*'] then
    .strong (String.mk ((p.take (p.length - 2)).drop 2))
  else if p.take 1 = ['*'] ∧ p.reverse.take 1 = ['*'] then
    .strong (String.mk ((p.take (p.length - 1)).drop 1))
  else .text (String.mk p)

/-- `formatText` (`page.tsx` lines 14–25). -/
def formatText (text : String) : List Segment :=
  (splitParts text).map renderPart

/-! ## Theorems -/

/-- C9: for every input whose trimmed form is empty, `handleSend` changes
nothing: the state (message list, input field, loading flag, session id) is
returned untouched and no request is issued. -/
theorem handleSend_blank_input_noop (st : ChatState) (now later : Nat)
    (outcome : FetchOutcome) (h : jsTrim st.input = "") :
    handleSend st now later outcome = (st, none) := by
  simp [handleSend, h]

/-- Witness for `handleSend_blank_input_noop` at a whitespace-only input. -/
theorem handleSend_blank_input_noop_witness :
    handleSend ⟨[], " \t\n ", false, "session_1_abc"⟩ 5 6
        (.ok ⟨some "hi", none, none⟩) = (⟨[], " \t\n ", false, "session_1_abc"⟩, none) :=
  handleSend_blank_input_noop ⟨[], " \t\n ", false, "session_1_abc"⟩ 5 6
    (.ok ⟨some "hi", none, none⟩) (by decide)

/-- C2: a backend failure never escapes `handleSend` (the embedded handler is
a total function, mirroring the `try`/`catch`/`finally`); on a non-success
HTTP status the appended bot message reads `Error: <status text>`, on a
thrown `Error` it reads `Error: <its message>`, and on a non-`Error` throw
it reads `Error: Unknown error` — in each case in place of a reply, with
`loading` back at idle. -/
theorem handleSend_failure_appends_error (st : ChatState) (now later : Nat)
    (h1 : ¬ jsTrim st.input = "") (h2 : ¬ st.sessionId = "") :
    (∀ statusText,
      (handleSend st now later (.httpErr statusText)).1.messages.getLast? =
        some { id := toString (later + 1), text := "Error: " ++ statusText,
               sender := .bot, timestamp := later, chips := none }) ∧
    (∀ m,
      (handleSend st now later (.exn (some m))).1.messages.getLast? =
        some { id := toString (later + 1), text := "Error: " ++ m,
               sender := .bot, timestamp := later, chips := none }) ∧
    ((handleSend st now later (.exn none)).1.messages.getLast? =
      some { id := toString (later + 1), text := "Error: Unknown error",
             sender := .bot, timestamp := later, chips := none }) ∧
    (∀ outcome, (handleSend st now later outcome).1.loading = false ∧
      (handleSend st now later outcome).1.messages.length =
        st.messages.length + 2) := by
  refine ⟨fun statusText => ?_, fun m => ?_, ?_, fun outcome => ?_⟩
  · simp [handleSend, h1, h2, List.getLast?_concat]
  · simp [handleSend, h1, h2, List.getLast?_concat]
  · simp [handleSend, h1, h2, List.getLast?_concat]
  · cases outcome <;> simp [handleSend, h1, h2]

/-- Witness for `handleSend_failure_appends_error`: an HTTP 500 with status
text `"Internal Server Error"` appends `Error: Internal Server Error`. -/
theorem handleSend_failure_appends_error_witness :
    (handleSend ⟨[], "hi", false, "session_1_abc"⟩ 5 6
        (.httpErr "Internal Server Error")).1.messages.getLast? =
      some { id := "7", text := "Error: Internal Server Error",
             sender := .bot, timestamp := 6, chips := none } :=
  (handleSend_failure_appends_error ⟨[], "hi", false, "session_1_abc"⟩ 5 6
    (by decide) (by decide)).1 "Internal Server Error"

/-- C10: the bot messages appended by the two failure branches of
`handleSend` carry no `chips` field at all, while the success branch always
attaches one (`data.chips || []`), so an error placeholder never shows
suggestion chips. -/
theorem handleSend_error_has_no_chips (st : ChatState) (now later : Nat)
    (h1 : ¬ jsTrim st.input = "") (h2 : ¬ st.sessionId = "") :
    (∀ statusText,
      ((handleSend st now later (.httpErr statusText)).1.messages.getLast?).map
          Message.chips = some none) ∧
    (∀ m,
      ((handleSend st now later (.exn m)).1.messages.getLast?).map
          Message.chips = some none) ∧
    (∀ body,
      ((handleSend st now later (.ok body)).1.messages.getLast?).map
          Message.chips = some (some (body.chips.getD []))) := by
  refine ⟨fun statusText => ?_, fun m => ?_, fun body => ?_⟩ <;>
    simp [handleSend, h1, h2, List.getLast?_concat]

/-- Witness for `handleSend_error_has_no_chips`: a transport failure appends
a chip-less bot message. -/
theorem handleSend_error_has_no_chips_witness :
    ((handleSend ⟨[], "hi", false, "session_1_abc"⟩ 5 6
        (.exn (some "Failed to fetch"))).1.messages.getLast?).map
        Message.chips = some none :=
  (handleSend_error_has_no_chips ⟨[], "hi", false, "session_1_abc"⟩ 5 6
    (by decide) (by decide)).2.1 (some "Failed to fetch")

/-! ### Lemmas about the formatter's regex scan -/

lemma lazyClose2_append (r : List Char) :
    ∀ l : List Char, (∀ ch ∈ l, isDotChar ch = true ∧ ch ≠ '*') →
      lazyClose2 (l ++ '*' :: '*' :: r) = some (l, r)
  | [], _ => by simp [lazyClose2]
  | ch :: t, h => by
    have hch := h ch (by simp)
    have ht : ∀ c ∈ t, isDotChar c = true ∧ c ≠ '*' :=
      fun c hc => h c (by simp [hc])
    simp [lazyClose2, hch.1, hch.2, lazyClose2_append r t ht]

lemma lazyClose1_append (r : List Char) :
    ∀ l : List Char, (∀ ch ∈ l, isDotChar ch = true ∧ ch ≠ '*') →
      lazyClose1 (l ++ '*' :: r) = some (l, r)
  | [], _ => by simp [lazyClose1]
  | ch :: t, h => by
    have hch := h ch (by simp)
    have ht : ∀ c ∈ t, isDotChar c = true ∧ c ≠ '*' :=
      fun c hc => h c (by simp [hc])
    simp [lazyClose1, hch.1, hch.2, lazyClose1_append r t ht]

lemma matchDelim_strong2 (l : List Char)
    (h : ∀ ch ∈ l, isDotChar ch = true ∧ ch ≠ '*') :
    matchDelim ('*' :: '*' :: (l ++ ['*', '*'])) =
      some ('*' :: '*' :: (l ++ ['*', '*']), []) := by
  have := lazyClose2_append [] l h
  simp [matchDelim, this]

lemma matchDelim_strong1 (l : List Char) (hne : l ≠ [])
    (h : ∀ ch ∈ l, isDotChar ch = true ∧ ch ≠ '*') :
    matchDelim ('*' :: (l ++ ['*'])) = some ('*' :: (l ++ ['*']), []) := by
  cases l with
  | nil => exact absurd rfl hne
  | cons ch t =>
    have hch := h ch (by simp)
    have h1 : lazyClose1 (ch :: (t ++ ['*'])) = some (ch :: t, []) := by
      simpa using lazyClose1_append [] (ch :: t) h
    simp [matchDelim, hch.2, h1]

lemma splitParts_strong2 (c : String)
    (h : ∀ ch ∈ c.data, isDotChar ch = true ∧ ch ≠ '*') :
    splitParts ("**" ++ c ++ "**") =
      [[], '*' :: '*' :: (c.data ++ ['*', '*']), []] := by
  have hdata : ("**" ++ c ++ "**").data = '*' :: '*' :: (c.data ++ ['*', '*']) := rfl
  have hm := matchDelim_strong2 c.data h
  unfold splitParts
  rw [hdata]
  have hlen : ('*' :: '*' :: (c.data ++ ['*', '*'])).length = c.data.length + 3 + 1 := by
    simp
  rw [hlen]
  simp [splitScanAux, hm]

lemma renderPart_strong2 (c : String) :
    renderPart ('*' :: '*' :: (c.data ++ ['*', '*'])) = .strong c := by
  have h2 : ('*' :: '*' :: (c.data ++ ['*', '*'])).reverse.take 2 = ['*', '*'] := by
    simp
  have hlen : ('*' :: '*' :: (c.data ++ ['*', '*'])).length - 2 = c.data.length + 2 := by
    simp
  have hslice :
      (('*' :: '*' :: (c.data ++ ['*', '*'])).take (c.data.length + 2)).drop 2 = c.data := by
    simp [List.take_append]
  simp [renderPart, h2, hlen, hslice]

lemma splitParts_strong1 (c : String) (hne : c.data ≠ [])
    (h : ∀ ch ∈ c.data, isDotChar ch = true ∧ ch ≠ '*') :
    splitParts ("*" ++ c ++ "*") = [[], '*' :: (c.data ++ ['*']), []] := by
  have hdata : ("*" ++ c ++ "*").data = '*' :: (c.data ++ ['*']) := rfl
  have hm := matchDelim_strong1 c.data hne h
  unfold splitParts
  rw [hdata]
  have hlen : ('*' :: (c.data ++ ['*'])).length = c.data.length + 1 + 1 := by
    simp
  rw [hlen]
  simp [splitScanAux, hm]

lemma renderPart_strong1 (c : String) (hne : c.data ≠ [])
    (h : ∀ ch ∈ c.data, isDotChar ch = true ∧ ch ≠ '*') :
    renderPart ('*' :: (c.data ++ ['*'])) = .strong c := by
  obtain ⟨ch, t, hct⟩ : ∃ ch t, c.data = ch :: t := by
    cases hd : c.data with
    | nil => exact absurd hd hne
    | cons a b => exact ⟨a, b, rfl⟩
  have hch : ch ≠ '*' := (h ch (by simp [hct])).2
  have h1 : ('*' :: (c.data ++ ['*'])).reverse.take 1 = ['*'] := by
    simp
  have hlen : ('*' :: (c.data ++ ['*'])).length - 1 = c.data.length + 1 := by
    simp
  have hslice :
      (('*' :: (c.data ++ ['*'])).take (c.data.length + 1)).drop 1 = c.data := by
    simp [List.take_append]
  simp [renderPart, h1, hlen, hslice]
  intro hbad1 _
  rw [hct] at hbad1
  simp [hch] at hbad1

/-- C8: the formatter on `"hello **world** *foo*"` yields exactly the segment
sequence plain `"hello "`, strong `"world"`, plain `" "`, strong `"foo"` and
a trailing empty plain segment; in general a `**…**` run and a `*…*` run
over delimiter-free content become a single emphasized segment with the
delimiters stripped, flanked by (possibly empty) plain segments. -/
theorem formatText_spec :
    (formatText "hello **world** *foo*" =
      [Segment.text "hello ", Segment.strong "world", Segment.text " ",
       Segment.strong "foo", Segment.text ""]) ∧
    (∀ c : String, (∀ ch ∈ c.data, isDotChar ch = true ∧ ch ≠ '*') →
      formatText ("**" ++ c ++ "**") =
        [Segment.text "", Segment.strong c, Segment.text ""]) ∧
    (∀ c : String, c.data ≠ [] → (∀ ch ∈ c.data, isDotChar ch = true ∧ ch ≠ '*') →
      formatText ("*" ++ c ++ "*") =
        [Segment.text "", Segment.strong c, Segment.text ""]) := by
  have hnil : renderPart [] = Segment.text "" := by decide
  refine ⟨by decide, fun c h => ?_, fun c hne h => ?_⟩
  · unfold formatText
    rw [splitParts_strong2 c h]
    simp [renderPart_strong2, hnil]
  · unfold formatText
    rw [splitParts_strong1 c hne h]
    simp [renderPart_strong1 c hne h, hnil]

/-- Witness for `formatText_spec`: both general parts applied to concrete
delimiter-free content. -/
theorem formatText_spec_witness :
    formatText ("**" ++ "bold" ++ "**") =
      [Segment.text "", Segment.strong "bold", Segment.text ""] ∧
    formatText ("*" ++ "x" ++ "*") =
      [Segment.text "", Segment.strong "x", Segment.text ""] :=
  ⟨formatText_spec.2.1 "bold" (by decide),
   formatText_spec.2.2 "x" (by decide) (by decide)⟩

/-! ### The success-path reply text (claim C1) -/

/-- The reply-text selection exactly as the claim words it: the text equals
`body.reply`, falling back to `body.message`, and to the stringified full
body only when neither field is present. -/
def claimReplyText (b : RespBody) : String :=
  match b.reply with
  | some r => r
  | none =>
    match b.message with
    | some m => m
    | none => jsonStringifyBody b

/-- Counterexample to C1 as stated: for the response body with `reply = ""`
and `message = ""` — both fields present, so the claim's rule yields the
present `reply`, namely `""` — the code's
`data.reply || data.message || JSON.stringify(data)` treats both present
fields as falsy and appends the stringified body instead. -/
theorem handleSend_reply_claim_counterexample :
    ((handleSend ⟨[], "hi", false, "session_1_abc"⟩ 5 6
        (.ok ⟨some "", some "", none⟩)).1.messages.getLast?).map Message.text ≠
      some (claimReplyText ⟨some "", some "", none⟩) ∧
    claimReplyText ⟨some "", some "", none⟩ = "" := by
  constructor <;> decide

/-- The reply-text selection as amended: a present but empty `reply` (and
`message`) also falls through, because `||` treats `""` as falsy. -/
def amendedReplyText (b : RespBody) : String :=
  match b.reply with
  | some r =>
    if r = "" then
      match b.message with
      | some m => if m = "" then jsonStringifyBody b else m
      | none => jsonStringifyBody b
    else r
  | none =>
    match b.message with
    | some m => if m = "" then jsonStringifyBody b else m
    | none => jsonStringifyBody b

/-- C1 (amended): on HTTP success the appended bot message's text is
`body.reply` when present and non-empty, else `body.message` when present
and non-empty, else the JSON-stringification of the full body; its chips are
`body.chips` when the field is present and the empty sequence otherwise.  In
particular `{reply:"hi"}` appends text `"hi"` with empty chips, and
`{message:"hey", chips:["a","b"]}` (no reply) appends text `"hey"` with
chips `["a","b"]`. -/
theorem handleSend_success_reply (st : ChatState) (now later : Nat)
    (body : RespBody) (h1 : ¬ jsTrim st.input = "") (h2 : ¬ st.sessionId = "") :
    ((handleSend st now later (.ok body)).1.messages.getLast? =
      some { id := toString (later + 1), text := amendedReplyText body,
             sender := .bot, timestamp := later,
             chips := some (body.chips.getD []) }) ∧
    ((handleSend ⟨[], "gift", false, "session_1_abc"⟩ 5 6
        (.ok ⟨some "hi", none, none⟩)).1.messages.getLast? =
      some { id := "7", text := "hi", sender := .bot, timestamp := 6,
             chips := some [] }) ∧
    ((handleSend ⟨[], "gift", false, "session_1_abc"⟩ 5 6
        (.ok ⟨none, some "hey", some ["a", "b"]⟩)).1.messages.getLast? =
      some { id := "7", text := "hey", sender := .bot, timestamp := 6,
             chips := some ["a", "b"] }) := by
  refine ⟨?_, by decide, by decide⟩
  have hsel : jsOrElse body.reply (jsOrElse body.message (jsonStringifyBody body)) =
      amendedReplyText body := by
    cases hr : body.reply <;> cases hm : body.message <;>
      simp [jsOrElse, amendedReplyText, hr, hm]
  simp [handleSend, h1, h2, List.getLast?_concat, hsel]

/-- Witness for `handleSend_success_reply` at a concrete state and body. -/
theorem handleSend_success_reply_witness :
    (handleSend ⟨[], "gift", false, "session_1_abc"⟩ 5 6
        (.ok ⟨some "", some "hey", none⟩)).1.messages.getLast? =
      some { id := "7", text := amendedReplyText ⟨some "", some "hey", none⟩,
             sender := .bot, timestamp := 6, chips := some [] } :=
  (handleSend_success_reply ⟨[], "gift", false, "session_1_abc"⟩ 5 6
    ⟨some "", some "hey", none⟩ (by decide) (by decide)).1

/-- C3: when the history query succeeds and returns a non-empty row list,
the restored message list is the history mapped element-wise in `created_at`
ascending order: index by index, the view message takes the persisted
content as its text, sender `user` exactly for role `"user"` and `bot` for
any other role, and carries no chips; the restored timestamps are
non-decreasing. -/
theorem initializeSession_restores_history (storage : Option String)
    (now : Nat) (rnd : String) (db : List ChatMessageRow) (st : ChatState)
    (hne : supabaseSelect db (resolveSession storage now rnd).1 ≠ []) :
    ((initializeSession storage now rnd db .ok st).1.messages.length =
      (supabaseSelect db (resolveSession storage now rnd).1).length) ∧
    (∀ i (hi : i < (initializeSession storage now rnd db .ok st).1.messages.length)
        (hr : i < (supabaseSelect db (resolveSession storage now rnd).1).length),
      (initializeSession storage now rnd db .ok st).1.messages.get ⟨i, hi⟩ =
        { id := ((supabaseSelect db (resolveSession storage now rnd).1).get ⟨i, hr⟩).id,
          text := ((supabaseSelect db (resolveSession storage now rnd).1).get ⟨i, hr⟩).content,
          sender :=
            if ((supabaseSelect db (resolveSession storage now rnd).1).get ⟨i, hr⟩).role = "user"
            then .user else .bot,
          timestamp := ((supabaseSelect db (resolveSession storage now rnd).1).get ⟨i, hr⟩).created_at,
          chips := none }) ∧
    (initializeSession storage now rnd db .ok st).1.messages.Pairwise
      (fun a b => a.timestamp ≤ b.timestamp) := by
  have hpos : (supabaseSelect db (resolveSession storage now rnd).1).length > 0 :=
    List.length_pos.mpr hne
  have hmsg : (initializeSession storage now rnd db .ok st).1.messages =
      (supabaseSelect db (resolveSession storage now rnd).1).map toViewMessage := by
    simp [initializeSession, hpos]
  refine ⟨by simp [hmsg], fun i hi hr => ?_, ?_⟩
  · rw [List.get_of_eq hmsg, List.get_map]
    rfl
  · rw [hmsg]
    have hsorted : (supabaseSelect db (resolveSession storage now rnd).1).Pairwise rowLe :=
      List.sorted_insertionSort rowLe _
    exact hsorted.map toViewMessage (fun a b hab => hab)

/-- Witness for `initializeSession_restores_history` on a two-row history. -/
theorem initializeSession_restores_history_witness :
    (initializeSession (some "s1") 9 "0.xyz"
        [⟨"m1", "s1", "user", "hello", 1⟩, ⟨"m2", "s1", "bot", "hi", 2⟩]
        .ok ⟨[], "", false, ""⟩).1.messages.length = 2 :=
  (initializeSession_restores_history (some "s1") 9 "0.xyz"
    [⟨"m1", "s1", "user", "hello", 1⟩, ⟨"m2", "s1", "bot", "hi", 2⟩]
    ⟨[], "", false, ""⟩ (by decide)).1

/-- C7: the gateway never throws — both operations are total and map both
failure modes (query error, thrown exception) to `null`; a successful
`getHistory` returns exactly the session's rows in `created_at` ascending
order, and a successful `saveMessage` returns the insert result, whose
payload consists of precisely `session_id`, `role` and `content` (no
client-chosen id or timestamp fields exist on the payload type). -/
theorem gateway_total_and_ordered :
    (∀ db sid, getHistory db sid .err = none ∧ getHistory db sid .thrown = none) ∧
    (∀ db sid, ∃ l, getHistory db sid .ok = some l ∧
      l.Pairwise rowLe ∧ l.Perm (db.filter fun r => r.session_id = sid)) ∧
    (∀ sessionId role content,
      saveMessage sessionId role content .err = none ∧
      saveMessage sessionId role content .thrown = none ∧
      saveMessage sessionId role content .ok =
        some [{ session_id := sessionId, role := role, content := content }]) :=
  ⟨fun _ _ => ⟨rfl, rfl⟩,
   fun db sid => ⟨supabaseSelect db sid, rfl,
     List.sorted_insertionSort rowLe _, List.perm_insertionSort rowLe _⟩,
   fun _ _ _ => ⟨rfl, rfl, rfl⟩⟩

/-- Counterexample to C4's "always different" part: the previous identifier
`session_0_i` is itself reachable (created at millisecond 0 with
`Math.random() = 0.5`, whose base-36 rendering is `"0.i"`); clearing the chat
in the same millisecond with the same random draw regenerates the identical
identifier, so the persisted new identifier equals the previous one. -/
theorem handleClearChat_same_id_counterexample :
    (handleClearChat true 0 "0.i" ⟨[], "draft", false, "session_0_i"⟩
        (some "session_0_i") []).1.sessionId = "session_0_i" ∧
    (handleClearChat true 0 "0.i" ⟨[], "draft", false, "session_0_i"⟩
        (some "session_0_i") []).2.1 = some "session_0_i" := by
  constructor <;> decide

/-- C4 (amended): on confirmation, clear-chat empties the message list,
clears the pending input, generates `session_<now>_<substr(rnd,2,9)>` and
persists it, and touches no persisted rows; the new identifier differs from
the previous one whenever the generated string differs (there is no
collision check, so equal time and random draw reproduce the old one). -/
theorem handleClearChat_spec (now : Nat) (rnd : String) (st : ChatState)
    (storage : Option String) (db : List ChatMessageRow)
    (hdiff : mkSessionId now rnd ≠ st.sessionId) :
    (handleClearChat true now rnd st storage db).1.messages = [] ∧
    (handleClearChat true now rnd st storage db).1.input = "" ∧
    (handleClearChat true now rnd st storage db).1.sessionId = mkSessionId now rnd ∧
    (handleClearChat true now rnd st storage db).1.sessionId ≠ st.sessionId ∧
    (handleClearChat true now rnd st storage db).2.1 = some (mkSessionId now rnd) ∧
    (handleClearChat true now rnd st storage db).2.2 = db := by
  simp [handleClearChat, hdiff]

/-- Witness for `handleClearChat_spec`: clearing one millisecond later
produces a genuinely different identifier. -/
theorem handleClearChat_spec_witness :
    (handleClearChat true 1 "0.i" ⟨[], "draft", false, "session_0_i"⟩
        (some "session_0_i") []).1.sessionId ≠ "session_0_i" ∧
    (handleClearChat true 1 "0.i" ⟨[], "draft", false, "session_0_i"⟩
        (some "session_0_i") []).1.messages = [] :=
  ⟨(handleClearChat_spec 1 "0.i" ⟨[], "draft", false, "session_0_i"⟩
      (some "session_0_i") [] (by decide)).2.2.2.1,
   (handleClearChat_spec 1 "0.i" ⟨[], "draft", false, "session_0_i"⟩
      (some "session_0_i") [] (by decide)).1⟩

/-- The identifier shape asserted by C5: `session_<millis>_<suffix>` with a
suffix that is a 9-character base-36 string. -/
def claimSessionIdForm (now : Nat) (id : String) : Prop :=
  ∃ suffix : String, id = "session_" ++ toString now ++ "_" ++ suffix ∧
    suffix.length = 9 ∧ suffix.data.all isBase36Char = true

/-- Counterexample to C5: `Math.random() = 0.5` renders in base 36 as
`"0.i"`, and `"0.i".substr(2, 9)` is the single character `"i"`, so the
generated identifier `session_0_i` has a 1-character suffix, not a
9-character one. -/
theorem mkSessionId_nine_chars_counterexample :
    ¬ claimSessionIdForm 0 (mkSessionId 0 "0.i") := by
  rintro ⟨suffix, heq, hlen, -⟩
  have h0 : mkSessionId 0 "0.i" = "session_0_i" := by decide
  have h1 : ("session_" ++ toString 0 ++ "_") = "session_0_" := by decide
  rw [h0, h1] at heq
  have hL := congrArg String.length heq
  rw [String.length_append] at hL
  have e1 : ("session_0_i" : String).length = 11 := by decide
  have e2 : ("session_0_" : String).length = 10 := by decide
  rw [e1, e2] at hL
  omega

/-- C5 (amended): a generated identifier is
`session_<currentTimeMillis>_<suffix>` where the suffix is the run of
base-36 fractional digits of the random rendering truncated by
`substr(2, 9)`: it has AT MOST nine characters, and exactly nine only when
the rendering `Math.random().toString(36)` is at least 11 characters long. -/
theorem mkSessionId_shape (now : Nat) (rnd : String)
    (h : isRand36Rendering rnd = true) :
    ∃ suffix : String,
      mkSessionId now rnd = "session_" ++ toString now ++ "_" ++ suffix ∧
      suffix.data.all isBase36Char = true ∧
      suffix.length ≤ 9 ∧
      (11 ≤ rnd.length → suffix.length = 9) := by
  refine ⟨jsSubstr rnd 2 9, rfl, ?_, ?_, ?_⟩
  · unfold isRand36Rendering at h
    simp only [Bool.or_eq_true, Bool.and_eq_true, decide_eq_true_eq] at h
    rcases h with h0 | ⟨⟨-, -⟩, hall⟩
    · subst h0
      decide
    · unfold jsSubstr
      simp only [List.all_eq_true] at hall ⊢
      intro c hc
      exact hall c (List.mem_of_mem_take hc)
  · show ((rnd.data.drop 2).take 9).length ≤ 9
    simp [List.length_take]
  · intro h11
    show ((rnd.data.drop 2).take 9).length = 9
    have : rnd.data.length = rnd.length := rfl
    simp [List.length_take, List.length_drop]
    omega

/-- Witness for `mkSessionId_shape` on a 12-character rendering, where the
suffix does reach nine characters. -/
theorem mkSessionId_shape_witness :
    ∃ suffix : String,
      mkSessionId 7 "0.abcdefghij" = "session_" ++ toString 7 ++ "_" ++ suffix ∧
      suffix.data.all isBase36Char = true ∧
      suffix.length ≤ 9 ∧
      (11 ≤ ("0.abcdefghij" : String).length → suffix.length = 9) :=
  mkSessionId_shape 7 "0.abcdefghij" (by decide)

/-- Counterexample to C6: a browser state in which the empty string is
stored under `chatSessionId` — `localStorage.getItem` then returns a string,
yet `!savedSessionId` treats it as absent, so the resolver does not return
the stored value, overwrites the key, and reports a write. -/
theorem resolveSession_stored_counterexample :
    (resolveSession (some "") 0 "0.i").1 ≠ "" ∧
    (resolveSession (some "") 0 "0.i").2.1 ≠ some "" ∧
    (resolveSession (some "") 0 "0.i").2.2 = true := by
  refine ⟨?_, ?_, ?_⟩ <;> decide

/-- C6 (amended): for every browser state storing a NON-EMPTY identifier
under `chatSessionId`, resolve-or-create returns that identifier unchanged
and performs no write, and hence repeated resolve calls keep returning it
until an explicit reset. -/
theorem resolveSession_stable (s : String) (now : Nat) (rnd : String)
    (h : s ≠ "") :
    resolveSession (some s) now rnd = (s, some s, false) ∧
    (∀ now2 rnd2,
      resolveSession (resolveSession (some s) now rnd).2.1 now2 rnd2 =
        (s, some s, false)) := by
  constructor
  · simp [resolveSession, h]
  · intro now2 rnd2
    simp [resolveSession, h]

/-- Witness for `resolveSession_stable` at a stored identifier. -/
theorem resolveSession_stable_witness :
    resolveSession (some "session_7_q1w2e3r4t") 3 "0.z" =
      ("session_7_q1w2e3r4t", some "session_7_q1w2e3r4t", false) :=
  (resolveSession_stable "session_7_q1w2e3r4t" 3 "0.z" (by decide)).1
